import Mathlib

/-!
Verification of the Compute v2 API library (`openstackclient/api/compute_v2.py`)
and the Volume v2 type commands (`openstackclient/volume/v2/volume_type.py`).

The Python code is shallowly embedded: JSON values become an inductive type,
Python dicts become insertion-ordered association lists with unique keys,
exceptions become `Except`, and the HTTP transport becomes explicit functions
(or a small `Server` model of the remote API, modelled from the spec where the
repository's own code for it is not part of the excerpt).
-/

/-- A JSON value, as far as this client manipulates one: strings, booleans,
null, and objects (Python dicts, which preserve insertion order). -/
inductive Json where
  | null : Json
  | bool : Bool → Json
  | str : String → Json
  | obj : List (String × Json) → Json
deriving Repr, BEq

/-- A resource record: the payload of a JSON object, i.e. a Python dict with
string keys.  Keys are unique in every record a server produces. -/
abbrev Record := List (String × Json)

/-- Exceptions raised by the keystoneauth transport layer (`ksa_exceptions`),
plus the distinct failure `osc_lib`'s `find_one` raises on an ambiguous match. -/
inductive KsaError where
  | notFound
  | badRequest
  | ambiguous
  | other
deriving Repr, DecidableEq

/-- The failures `APIv2.find` can produce: the `osc_lib` `exceptions.NotFound`
it raises itself (with a message), a transport exception it lets propagate
unchanged, and the `IndexError` of `list(ret.keys())[0]` on an empty dict. -/
inductive FindError where
  | oscNotFound (msg : String)
  | propagated (e : KsaError)
  | indexError
deriving Repr, DecidableEq

/-- The envelope-stripping step of `APIv2.find` (compute_v2.py lines 50-53):
`if isinstance(ret, dict): key = list(ret.keys())[0]; ret = ret[key]`.
A non-dict is returned unchanged; a dict is replaced by the value under its
first key; an empty dict makes the subscript `[0]` raise `IndexError`. -/
def stripEnvelope (ret : Json) : Except FindError Json :=
  match ret with
  | Json.obj [] => Except.error FindError.indexError
  | Json.obj ((_, v) :: _) => Except.ok v
  | ret => Except.ok ret

/-- `APIv2.find` (compute_v2.py lines 32-65), parametrised by the transport:
`directGet value` is `self._request('GET', "/%s/%s" % (path, value)).json()`
and `find_one attr value` is `self.find_one(path, **{attr: value})`.
The boolean of the result records whether the fallback list query was issued.
`NotFound` and `BadRequest` from the direct fetch select the fallback;
`NotFound` from the fallback becomes `exceptions.NotFound("%s not found" % value)`;
every other transport failure propagates unchanged. -/
def APIv2.find (directGet : String → Except KsaError Json)
    (find_one : String → String → Except KsaError Json)
    (attr value : String) : Except FindError Json × Bool :=
  match directGet value with
  | Except.ok ret => (stripEnvelope ret, false)
  | Except.error KsaError.notFound | Except.error KsaError.badRequest =>
    (match find_one attr value with
     | Except.ok r => Except.ok r
     | Except.error KsaError.notFound =>
         Except.error (FindError.oscNotFound (value ++ " not found"))
     | Except.error e => Except.error (FindError.propagated e),
     true)
  | Except.error e => (Except.error (FindError.propagated e), false)

/-- Does record `r` have an `id` field equal to the string `value`?  This is
what the remote API's `GET <path>/<value>` checks. -/
def idMatches (value : String) (r : Record) : Bool :=
  match List.lookup "id" r with
  | some (Json.str s) => s == value
  | _ => false

/-- Does record `r` have field `attr` equal to the string `value`?  This is
the fallback list-and-filter predicate. -/
def attrMatches (attr value : String) (r : Record) : Bool :=
  match List.lookup attr r with
  | some (Json.str s) => s == value
  | _ => false

/-- The remote collection behind one path: its resource records and the
singular envelope key its single-resource responses are wrapped under. -/
structure Server where
  resources : List Record
  envelopeKey : String

/-- Modelled from the spec: the remote REST API's single-resource GET (the
transport behind `self._request` is not part of the excerpt).  `GET
<path>/<value>` returns the record whose `id` equals the path segment,
wrapped in the single-key envelope, and fails with `NotFound` otherwise. -/
def Server.directGet (srv : Server) (value : String) : Except KsaError Json :=
  match srv.resources.find? (idMatches value) with
  | some r => Except.ok (Json.obj [(srv.envelopeKey, Json.obj r)])
  | none => Except.error KsaError.notFound

/-- Modelled from the spec: `osc_lib`'s `BaseAPI.find_one` (not in the
excerpt) — the fallback listing query filtered by `attr == value` is required
to resolve to exactly one match; zero matches raise the transport `NotFound`,
more than one fail as an ambiguous match. -/
def Server.find_one (srv : Server) (attr value : String) : Except KsaError Json :=
  match srv.resources.filter (attrMatches attr value) with
  | [r] => Except.ok (Json.obj r)
  | [] => Except.error KsaError.notFound
  | _ => Except.error KsaError.ambiguous

/-- `APIv2.find` run against the `Server` model of the remote collection. -/
def Server.find (srv : Server) (attr value : String) : Except FindError Json × Bool :=
  APIv2.find srv.directGet srv.find_one attr value

/-- Python dict assignment `d[k] = v` on an association list: an existing key
keeps its position and gets the new value, a new key is appended at the end. -/
def setKey {α : Type} (r : List (String × α)) (k : String) (v : α) :
    List (String × α) :=
  if (List.lookup k r).isSome then
    r.map (fun kv => cond (kv.1 == k) (k, v) kv)
  else
    r ++ [(k, v)]

/-- The merge loop of `APIv2.security_group_set` (compute_v2.py lines 202-205):
`for (k, v) in params.items(): if k in security_group: security_group[k] = v`.
Only keys already present on the fetched record are assigned; the record is
threaded through the iterations in order. -/
def mergeParams : Record → Record → Record
  | record, [] => record
  | record, (k, v) :: rest =>
      mergeParams (if (List.lookup k record).isSome then setKey record k v else record) rest

/-- `APIv2.security_group_set` (compute_v2.py lines 173-211), run against the
`Server` model and returning the dict sent as the `PUT` request body (the
response is the remote server's echo of it and stays outside the model).
The target is resolved with `self.find(url, attr='name', value=...)`; a
failure there propagates.  The `if params is None` short-circuit is dead code
(a `**params` dict is never `None`) and the resolved record is never `None`
(`find` raises instead), so neither contributes a case. -/
def security_group_set (srv : Server) (security_group : String)
    (params : Record) : Except FindError Record :=
  match (Server.find srv "name" security_group).1 with
  | Except.error e => Except.error e
  | Except.ok (Json.obj record) => Except.ok (mergeParams record params)
  | Except.ok _ => Except.error FindError.indexError

/-- The query-parameter assembly of `APIv2.security_group_list`
(compute_v2.py lines 162-168): start from the truthy-valued entries of
`search_opts` (or empty when it is `None`), then set `limit` and `offset`
when those arguments are truthy.  String values are truthy when non-empty,
an integer limit when non-zero. -/
def security_group_list_params (limit : Option Nat) (marker : Option String)
    (search_opts : Option (List (String × String))) : List (String × String) :=
  let params : List (String × String) :=
    match search_opts with
    | none => []
    | some opts => opts.filter (fun kv => kv.2 != "")
  let params :=
    match limit with
    | some n => if n != 0 then setKey params "limit" (toString n) else params
    | none => params
  match marker with
  | some m => if m != "" then setKey params "offset" m else params
  | none => params

/-- `APIv2.security_group_list` (compute_v2.py lines 141-171), parametrised by
the transport: `listReq ps` is `self.list(url, **ps)["security_groups"]`. -/
def security_group_list (listReq : List (String × String) → List Record)
    (limit : Option Nat) (marker : Option String)
    (search_opts : Option (List (String × String))) : List Record :=
  listReq (security_group_list_params limit marker search_opts)

/-! ## Volume v2 type commands -/

/-- Python `d.pop(k)`'s removal effect on an association list. -/
def eraseKey (r : Record) (k : String) : Record :=
  r.filter (fun kv => kv.1 != k)

/-- A string-to-string mapping as a JSON object value. -/
def strMap (d : List (String × String)) : Json :=
  Json.obj (d.map (fun kv => (kv.1, Json.str kv.2)))

/-- Modelled from the spec: `utils.format_dict` (openstackclient.common.utils
is not part of the excerpt).  The spec's end-to-end property reads the
displayed `properties` field as equal to the property mapping itself, so the
display formatting of a map value is the identity on it. -/
def format_dict (d : Json) : Json := d

/-- Modelled from the spec: the volume SDK's `volume_type.set_keys` (the SDK
is not part of the excerpt) — the `--property` pairs are attached via a
secondary call that stores them as the type's extra specs and returns the
stored mapping. -/
def set_keys (props : List (String × String)) : List (String × String) := props

/-- Modelled from the spec: the volume SDK's `volume_types.create` — the
created record carries a server-assigned id, the requested name, description
and visibility, and an initially empty `extra_specs` map. -/
def volume_types_create (name : String) (description : Option String)
    (is_public : Option Bool) : Record :=
  [("id", Json.str ("volume-type-" ++ name)),
   ("name", Json.str name),
   ("description", (description.map Json.str).getD Json.null),
   ("extra_specs", Json.obj [])]
  ++ (match is_public with
      | some b => [("is_public", Json.bool b)]
      | none => [])

/-- Lexicographic comparison of character lists by code point, the order
Python's `sorted` uses on strings. -/
def charListLe : List Char → List Char → Bool
  | [], _ => true
  | _ :: _, [] => false
  | a :: as, b :: bs => if a < b then true else if b < a then false else charListLe as bs

/-- `a <= b` on strings, by code points. -/
def strLe (a b : String) : Bool := charListLe a.data b.data

/-- Insert a key/value pair into a key-sorted association list. -/
def insertSorted (p : String × Json) : Record → Record
  | [] => [p]
  | q :: rest => if strLe p.1 q.1 then p :: q :: rest else q :: insertSorted p rest

/-- Sort a record by key, as Python's `sorted` does on dict items (keys are
unique in a dict, so comparing the pairs compares the keys). -/
def sortByKey : Record → Record
  | [] => []
  | p :: rest => insertSorted p (sortByKey rest)

/-- `zip(*sorted(six.iteritems(info)))`: the single-record display, a column
list and the matching value list, ordered by field name. -/
def showOne (info : Record) : List String × List Json :=
  ((sortByKey info).map Prod.fst, (sortByKey info).map Prod.snd)

/-- The parsed arguments of `volume type create` (volume_type.py lines
33-67): positional name, optional description, the mutually exclusive
`--public`/`--private` pair, and the repeatable `--property` pairs (`none`
when the option never appeared). -/
structure CreateArgs where
  name : String
  description : Option String
  public : Bool
  «private» : Bool
  property : Option (List (String × String))

/-- `CreateVolumeType.take_action` (volume_type.py lines 69-90): build the
`is_public` kwarg from the flags, create the type, pop `extra_specs` from the
record (a create response always carries it, so the `KeyError` path of `pop`
is unreachable), attach the formatted `properties` field when `--property`
was supplied, and return the sorted key/value display. -/
def CreateVolumeType_take_action (args : CreateArgs) : List String × List Json :=
  let kwargs0 : Option Bool := if args.public then some true else none
  let kwargs : Option Bool := if args.«private» then some false else kwargs0
  let volume_type := volume_types_create args.name args.description kwargs
  let info := eraseKey volume_type "extra_specs"
  let info :=
    match args.property with
    | some props =>
        if props != [] then
          setKey info "properties" (format_dict (strMap (set_keys props)))
        else info
    | none => info
  showOne info

/-- `ShowVolumeType.take_action` (volume_type.py lines 221-228) on the record
the identifier resolved to: pop `extra_specs` (`none` models the `KeyError`
when the field is absent), store its formatted value under `properties`, and
return the sorted key/value display. -/
def ShowVolumeType_take_action (volume_type : Record) :
    Option (List String × List Json) :=
  match List.lookup "extra_specs" volume_type with
  | none => none
  | some es =>
      let properties := format_dict es
      let info := setKey (eraseKey volume_type "extra_specs") "properties" properties
      some (showOne info)

/-- Modelled from the spec: `utils.get_item_properties`
(openstackclient.common.utils is not part of the excerpt) — one display row,
the item's value for each requested column, with the `Extra Specs` column
passed through the `format_dict` formatter as `ListVolumeType` requests. -/
def get_item_properties (item : Record) (columns : List String) : List Json :=
  columns.map (fun c =>
    let v := (List.lookup c item).getD Json.null
    if c == "Extra Specs" then format_dict v else v)

/-- `ListVolumeType.take_action` (volume_type.py lines 130-143): the long
mode selects the four-column layout, otherwise two columns; the headers
rename `Extra Specs` to `Properties`; every listed type becomes one row. -/
def ListVolumeType_take_action (data : List Record) (long : Bool) :
    List String × List (List Json) :=
  let columns :=
    if long then ["ID", "Name", "Description", "Extra Specs"]
    else ["ID", "Name"]
  let column_headers :=
    if long then ["ID", "Name", "Description", "Properties"]
    else columns
  (column_headers, data.map (fun s => get_item_properties s columns))

/-- The resolved volume type, as far as the set/unset handlers use it. -/
structure VT where
  id : String

/-- One call to the volume SDK client, recorded in issue order. -/
inductive VCall where
  | find_resource (ident : String)
  | update (id : String) (kwargs : List (String × String))
  | set_keys (id : String) (props : List (String × String))
  | unset_keys (id : String) (prop : String)
deriving Repr, DecidableEq

/-- The parsed arguments of `volume type set` (volume_type.py lines 151-175). -/
structure SetArgs where
  volume_type : String
  name : Option String
  description : Option String
  property : Option (List (String × String))

/-- Python truthiness of an optional string argument (`None` and `""` are
falsy). -/
def optStrTruthy : Option String → Bool
  | none => false
  | some s => s != ""

/-- Python truthiness of an optional key/value dict argument (`None` and the
empty dict are falsy). -/
def propsTruthy : Option (List (String × String)) → Bool
  | none => false
  | some ps => ps != []

/-- `SetVolumeType.take_action` (volume_type.py lines 177-204).  `resolve`
is `utils.find_resource` (modelled from the spec: it is not part of the
excerpt; it resolves a name-or-ID to the resource and fails with NotFound
when the target does not exist).  The result pairs the SDK calls issued, in
order, with either the propagated NotFound or the optional logged
"no changes" message. -/
def SetVolumeType_take_action (resolve : String → Option VT) (args : SetArgs) :
    List VCall × Except String (Option String) :=
  match resolve args.volume_type with
  | none => ([VCall.find_resource args.volume_type],
             Except.error (args.volume_type ++ " not found"))
  | some volume_type =>
    if !optStrTruthy args.name && !optStrTruthy args.description
        && !propsTruthy args.property then
      ([VCall.find_resource args.volume_type],
       Except.ok (some "No changes requested"))
    else
      let kwargs :=
        (match args.name with
         | some n => if n != "" then [("name", n)] else []
         | none => [])
        ++ (match args.description with
            | some d => if d != "" then [("description", d)] else []
            | none => [])
      let calls := [VCall.find_resource args.volume_type]
      let calls :=
        if kwargs != [] then calls ++ [VCall.update volume_type.id kwargs]
        else calls
      let calls :=
        match args.property with
        | some ps =>
            if ps != [] then calls ++ [VCall.set_keys volume_type.id ps]
            else calls
        | none => calls
      (calls, Except.ok none)

/-- The command line of `volume type unset` before parsing: the positional
identifier and the `--property` option (`none` when it never appeared). -/
structure UnsetArgv where
  volume_type : String
  property : Option String

/-- Modelled from the spec: the parser built by `volume type unset`
(volume_type.py lines 236-251) marks `--property` as `required=True`, and
argparse (not part of the excerpt) rejects an invocation that omits a
required option before the handler runs.  `UnsetVolumeType_run` chains that
parse with `take_action` (lines 253-261), which resolves the identifier and
issues `unset_keys`; the result pairs the SDK calls issued, in order, with
the outcome. -/
def UnsetVolumeType_run (resolve : String → Option VT) (argv : UnsetArgv) :
    List VCall × Except String Unit :=
  match argv.property with
  | none => ([], Except.error "the following arguments are required: --property")
  | some prop =>
    match resolve argv.volume_type with
    | none => ([VCall.find_resource argv.volume_type],
               Except.error (argv.volume_type ++ " not found"))
    | some volume_type =>
      ([VCall.find_resource argv.volume_type,
        VCall.unset_keys volume_type.id prop],
       Except.ok ())

/-! ## Concrete instances used by the closed parts of the claims and by the
witnesses -/

/-- A collection holding one security group with id `abc` and name `grp`. -/
def srvOne : Server :=
  { resources := [[("id", Json.str "abc"), ("name", Json.str "grp")]],
    envelopeKey := "security_group" }

/-- A collection holding two security groups that share the name `dup`. -/
def srvDup : Server :=
  { resources := [[("id", Json.str "1"), ("name", Json.str "dup")],
                  [("id", Json.str "2"), ("name", Json.str "dup")]],
    envelopeKey := "security_group" }

/-- An empty collection. -/
def srvEmpty : Server := { resources := [], envelopeKey := "security_group" }

/-- The collection of the spec's update/merge example: one security group with
record `id = 1, name = a`. -/
def srvSG : Server :=
  { resources := [[("id", Json.str "1"), ("name", Json.str "a")]],
    envelopeKey := "security_group" }

/-- The `volume type create` invocation of the end-to-end property: name
`gold`, `--property foo=bar`, everything else defaulted. -/
def createGoldArgs : CreateArgs :=
  { name := "gold", description := none, public := false, «private» := false,
    property := some [("foo", "bar")] }

/-- Modelled from the spec: the record the volume service stores after
`create gold` followed by the secondary `set_keys` call with `foo=bar` - the
created record with its extra specs replaced by the supplied mapping. -/
def goldRecord : Record :=
  setKey (volume_types_create "gold" none none) "extra_specs"
    (strMap [("foo", "bar")])


/-! ## Claims about the resolver and the security-group operations -/

/-- C5: for every direct-fetch response of `find` whose JSON body is a
single-key mapping, `find` returns the value stored under that key (the
unwrapped record), not the enclosing mapping. -/
theorem find_unwraps_single_key_envelope
    (directGet : String → Except KsaError Json)
    (find_one : String → String → Except KsaError Json)
    (attr value k : String) (v : Json)
    (h : directGet value = Except.ok (Json.obj [(k, v)])) :
    (APIv2.find directGet find_one attr value).1 = Except.ok v := by
  unfold APIv2.find
  rw [h]
  rfl

theorem find_unwraps_single_key_envelope_witness :
    (APIv2.find (fun _ => Except.ok (Json.obj [("server", Json.str "x")]))
      (fun _ _ => Except.error KsaError.notFound) "name" "abc").1
      = Except.ok (Json.str "x") :=
  find_unwraps_single_key_envelope
    (fun _ => Except.ok (Json.obj [("server", Json.str "x")]))
    (fun _ _ => Except.error KsaError.notFound)
    "name" "abc" "server" (Json.str "x") rfl

/-- C8: passing an empty search-filter mapping to `security_group_list`
yields the same request parameters, and hence the same result, as passing no
search filters at all. -/
theorem security_group_list_empty_filters
    (listReq : List (String × String) → List Record)
    (limit : Option Nat) (marker : Option String) :
    security_group_list_params limit marker (some []) =
      security_group_list_params limit marker none
    ∧ security_group_list listReq limit marker (some []) =
      security_group_list listReq limit marker none :=
  ⟨rfl, rfl⟩

theorem security_group_list_empty_filters_witness :
    security_group_list_params (some 5) (some "m") (some []) =
      security_group_list_params (some 5) (some "m") none
    ∧ security_group_list (fun _ => []) (some 5) (some "m") (some []) =
      security_group_list (fun _ => []) (some 5) (some "m") none :=
  security_group_list_empty_filters (fun _ => []) (some 5) (some "m")

/-- C7, refuted as stated: enabling long mode does not add exactly one
displayed column - the non-long layout has two columns and the long layout
four. -/
theorem listVolumeType_long_not_one_extra :
    (ListVolumeType_take_action [] true).1.length ≠
      (ListVolumeType_take_action [] false).1.length + 1 := by decide

/-- C7, amended: enabling long mode adds exactly two displayed columns,
`Description` and `Properties`, and the non-long columns stay as the first
two. -/
theorem listVolumeType_long_adds_two_columns (data : List Record) :
    (ListVolumeType_take_action data true).1 =
      (ListVolumeType_take_action data false).1 ++ ["Description", "Properties"] :=
  rfl

theorem listVolumeType_long_adds_two_columns_witness :
    (ListVolumeType_take_action [] true).1 =
      (ListVolumeType_take_action [] false).1 ++ ["Description", "Properties"] :=
  listVolumeType_long_adds_two_columns []

/-- C9: an invocation of `volume type unset` with zero property keys supplied
is rejected at the argument-parsing boundary: the run fails and issues no SDK
call at all, in particular no identifier resolution. -/
theorem unsetVolumeType_requires_property
    (resolve : String → Option VT) (vt : String) :
    (UnsetVolumeType_run resolve { volume_type := vt, property := none }).1 = []
    ∧ ∃ e, (UnsetVolumeType_run resolve { volume_type := vt, property := none }).2
        = Except.error e :=
  ⟨rfl, "the following arguments are required: --property", rfl⟩

theorem unsetVolumeType_requires_property_witness :
    (UnsetVolumeType_run (fun _ => some { id := "42" })
        { volume_type := "gold", property := none }).1 = []
    ∧ ∃ e, (UnsetVolumeType_run (fun _ => some { id := "42" })
        { volume_type := "gold", property := none }).2 = Except.error e :=
  unsetVolumeType_requires_property (fun _ => some { id := "42" }) "gold"

/-- C1: for every identifier that exactly equals an existing resource's ID,
`find` succeeds via the direct GET alone - the fallback list query is not
issued - and returns the (envelope-unwrapped) record of a resource bearing
that ID. -/
theorem find_by_id_no_fallback (srv : Server) (attr value : String)
    (r : Record) (hr : r ∈ srv.resources) (hid : idMatches value r = true) :
    (Server.find srv attr value).2 = false
    ∧ ∃ rf, rf ∈ srv.resources ∧ idMatches value rf = true
        ∧ (Server.find srv attr value).1 = Except.ok (Json.obj rf) := by
  have hsome : (srv.resources.find? (idMatches value)).isSome := by
    rw [List.find?_isSome]
    exact ⟨r, hr, hid⟩
  obtain ⟨rf, hrf⟩ := Option.isSome_iff_exists.mp hsome
  have hmem : rf ∈ srv.resources := List.mem_of_find?_eq_some hrf
  have hpred : idMatches value rf = true := List.find?_some hrf
  have hdg : Server.directGet srv value
      = Except.ok (Json.obj [(srv.envelopeKey, Json.obj rf)]) := by
    unfold Server.directGet
    rw [hrf]
  refine ⟨?_, rf, hmem, hpred, ?_⟩ <;>
    simp [Server.find, APIv2.find, hdg, stripEnvelope]

theorem find_by_id_no_fallback_witness :
    (Server.find srvOne "name" "abc").2 = false
    ∧ ∃ rf, rf ∈ srvOne.resources ∧ idMatches "abc" rf = true
        ∧ (Server.find srvOne "name" "abc").1 = Except.ok (Json.obj rf) :=
  find_by_id_no_fallback srvOne "name" "abc"
    [("id", Json.str "abc"), ("name", Json.str "grp")]
    (List.mem_singleton.mpr rfl) rfl

/-- C2: when the identifier matches no resource ID and the fallback search
matches zero resources or more than one resource, `find` fails rather than
returning an arbitrary record; and whenever `find` does return a record on
this fallback path, the record corresponds to exactly one remote resource
matching the search. -/
theorem find_fallback_requires_unique_match (srv : Server) (attr value : String)
    (hnoid : srv.resources.find? (idMatches value) = none) :
    ((srv.resources.filter (attrMatches attr value)).length ≠ 1 →
      ∃ e, (Server.find srv attr value).1 = Except.error e)
    ∧ (∀ ret, (Server.find srv attr value).1 = Except.ok ret →
        ∃ r, srv.resources.filter (attrMatches attr value) = [r]
          ∧ ret = Json.obj r) := by
  have hdg : Server.directGet srv value = Except.error KsaError.notFound := by
    unfold Server.directGet
    rw [hnoid]
  cases hfil : srv.resources.filter (attrMatches attr value) with
  | nil =>
      constructor
      · intro _
        refine ⟨FindError.oscNotFound (value ++ " not found"), ?_⟩
        simp [Server.find, APIv2.find, hdg, Server.find_one, hfil]
      · intro ret hret
        simp [Server.find, APIv2.find, hdg, Server.find_one, hfil] at hret
  | cons a t =>
      cases t with
      | nil =>
          constructor
          · intro hcount
            exact absurd (by simp [hfil]) hcount
          · intro ret hret
            refine ⟨a, rfl, ?_⟩
            simp [Server.find, APIv2.find, hdg, Server.find_one, hfil] at hret
            exact hret.symm
      | cons b t2 =>
          constructor
          · intro _
            refine ⟨FindError.propagated KsaError.ambiguous, ?_⟩
            simp [Server.find, APIv2.find, hdg, Server.find_one, hfil]
          · intro ret hret
            simp [Server.find, APIv2.find, hdg, Server.find_one, hfil] at hret

theorem find_fallback_requires_unique_match_witness :
    (((srvEmpty.resources.filter (attrMatches "name" "ghost")).length ≠ 1 →
        ∃ e, (Server.find srvEmpty "name" "ghost").1 = Except.error e)
      ∧ (∀ ret, (Server.find srvEmpty "name" "ghost").1 = Except.ok ret →
          ∃ r, srvEmpty.resources.filter (attrMatches "name" "ghost") = [r]
            ∧ ret = Json.obj r))
    ∧ (((srvDup.resources.filter (attrMatches "name" "dup")).length ≠ 1 →
        ∃ e, (Server.find srvDup "name" "dup").1 = Except.error e)
      ∧ (∀ ret, (Server.find srvDup "name" "dup").1 = Except.ok ret →
          ∃ r, srvDup.resources.filter (attrMatches "name" "dup") = [r]
            ∧ ret = Json.obj r)) :=
  ⟨find_fallback_requires_unique_match srvEmpty "name" "ghost" rfl,
   find_fallback_requires_unique_match srvDup "name" "dup" rfl⟩

/-- C3: for every identifier that matches neither a resource ID in the direct
fetch nor any resource in the fallback search, `find` raises the NotFound
error and its message contains that exact identifier string. -/
theorem find_miss_both_raises_not_found (srv : Server) (attr value : String)
    (hnoid : srv.resources.find? (idMatches value) = none)
    (hnone : srv.resources.filter (attrMatches attr value) = []) :
    ∃ msg, (Server.find srv attr value).1
        = Except.error (FindError.oscNotFound msg)
      ∧ ∃ tail, msg = value ++ tail := by
  refine ⟨value ++ " not found", ?_, " not found", rfl⟩
  have hdg : Server.directGet srv value = Except.error KsaError.notFound := by
    unfold Server.directGet
    rw [hnoid]
  simp [Server.find, APIv2.find, hdg, Server.find_one, hnone]

theorem find_miss_both_raises_not_found_witness :
    ∃ msg, (Server.find srvOne "name" "ghost").1
        = Except.error (FindError.oscNotFound msg)
      ∧ ∃ tail, msg = "ghost" ++ tail :=
  find_miss_both_raises_not_found srvOne "name" "ghost" rfl rfl

/-- C10: with none of `--name`, `--description`, `--property` supplied, the
set handler still resolves the volume type identifier - the only SDK call it
issues, which fails with NotFound for a nonexistent target - before emitting
the no-changes message, and it issues no update or property-set call. -/
theorem setVolumeType_no_changes_still_resolves
    (resolve : String → Option VT) (args : SetArgs)
    (hn : args.name = none) (hd : args.description = none)
    (hp : args.property = none) :
    (SetVolumeType_take_action resolve args).1
      = [VCall.find_resource args.volume_type]
    ∧ (resolve args.volume_type = none →
        (SetVolumeType_take_action resolve args).2
          = Except.error (args.volume_type ++ " not found"))
    ∧ (∀ v, resolve args.volume_type = some v →
        (SetVolumeType_take_action resolve args).2
          = Except.ok (some "No changes requested")) := by
  unfold SetVolumeType_take_action
  cases hres : resolve args.volume_type with
  | none => simp [hres]
  | some v => simp [hres, hn, hd, hp, optStrTruthy, propsTruthy]

theorem setVolumeType_no_changes_still_resolves_witness :
    ((SetVolumeType_take_action (fun _ => none)
        { volume_type := "missing", name := none, description := none,
          property := none }).1
      = [VCall.find_resource "missing"]
    ∧ ((fun (_ : String) => (none : Option VT)) "missing" = none →
        (SetVolumeType_take_action (fun _ => none)
          { volume_type := "missing", name := none, description := none,
            property := none }).2
          = Except.error ("missing" ++ " not found"))
    ∧ (∀ v, (fun (_ : String) => (none : Option VT)) "missing" = some v →
        (SetVolumeType_take_action (fun _ => none)
          { volume_type := "missing", name := none, description := none,
            property := none }).2
          = Except.ok (some "No changes requested"))) :=
  setVolumeType_no_changes_still_resolves (fun _ => none)
    { volume_type := "missing", name := none, description := none,
      property := none } rfl rfl rfl


/-- Unfolding equation for `List.lookup` on a cons cell, with a `Bool`
conditional. -/
theorem lookup_cons_eqn {α : Type} (q a : String) (b : α)
    (t : List (String × α)) :
    List.lookup q ((a, b) :: t) = cond (q == a) (some b) (List.lookup q t) := by
  cases h : q == a <;> simp [List.lookup, h]

/-- Replacing the value under `k` does not change the lookup of any other
key. -/
theorem lookup_map_setVal {α : Type} (k q : String) (v : α) (hne : q ≠ k) :
    ∀ r : List (String × α),
      List.lookup q (r.map (fun kv => cond (kv.1 == k) (k, v) kv))
        = List.lookup q r := by
  intro r
  induction r with
  | nil => rfl
  | cons p t ih =>
      obtain ⟨a, b⟩ := p
      by_cases hak : a = k
      · subst hak
        simp only [List.map_cons, beq_self_eq_true, cond_true]
        rw [lookup_cons_eqn, lookup_cons_eqn, beq_false_of_ne hne]
        simp only [cond_false]
        exact ih
      · simp only [List.map_cons, beq_false_of_ne hak, cond_false]
        rw [lookup_cons_eqn, lookup_cons_eqn]
        cases hqa : q == a with
        | true => rfl
        | false =>
            simp only [cond_false]
            exact ih

/-- Appending a pair under a different key does not change a lookup. -/
theorem lookup_append_single_ne {α : Type} (k q : String) (v : α)
    (hne : q ≠ k) :
    ∀ r : List (String × α),
      List.lookup q (r ++ [(k, v)]) = List.lookup q r := by
  intro r
  induction r with
  | nil => simp [List.lookup, beq_false_of_ne hne]
  | cons p t ih =>
      obtain ⟨a, b⟩ := p
      rw [List.cons_append, lookup_cons_eqn, lookup_cons_eqn]
      cases hqa : q == a with
      | true => rfl
      | false =>
          simp only [cond_false]
          exact ih

/-- `setKey` does not change the lookup of any other key. -/
theorem lookup_setKey_ne {α : Type} (r : List (String × α)) (k q : String)
    (v : α) (hne : q ≠ k) :
    List.lookup q (setKey r k v) = List.lookup q r := by
  unfold setKey
  by_cases h : (List.lookup k r).isSome
  · rw [if_pos h]
    exact lookup_map_setVal k q v hne r
  · rw [if_neg h]
    exact lookup_append_single_ne k q v hne r

/-- `setKey` on a key that is present makes its lookup the new value. -/
theorem lookup_setKey_self {α : Type} (k : String) (v : α) :
    ∀ r : List (String × α), (List.lookup k r).isSome →
      List.lookup k (setKey r k v) = some v := by
  intro r h
  unfold setKey
  rw [if_pos h]
  induction r with
  | nil => simp [List.lookup] at h
  | cons p t ih =>
      obtain ⟨a, b⟩ := p
      by_cases hak : a = k
      · subst hak
        simp only [List.map_cons, beq_self_eq_true, cond_true]
        rw [lookup_cons_eqn, beq_self_eq_true]
        rfl
      · have hka : (k == a) = false := beq_false_of_ne (Ne.symm hak)
        rw [lookup_cons_eqn, hka] at h
        simp only [cond_false] at h
        simp only [List.map_cons, beq_false_of_ne hak, cond_false]
        rw [lookup_cons_eqn, hka]
        simp only [cond_false]
        exact ih h

/-- The merge loop leaves keys it never assigns untouched. -/
theorem lookup_mergeParams_not_mem (k : String) :
    ∀ (params record : Record), k ∉ params.map Prod.fst →
      List.lookup k (mergeParams record params) = List.lookup k record := by
  intro params
  induction params with
  | nil => intro record _; rfl
  | cons p rest ih =>
      intro record h
      obtain ⟨k1, v1⟩ := p
      rw [List.map_cons, List.mem_cons] at h
      push_neg at h
      rw [mergeParams, ih _ h.2]
      by_cases h1 : (List.lookup k1 record).isSome
      · rw [if_pos h1]
        exact lookup_setKey_ne record k1 k v1 h.1
      · rw [if_neg h1]

/-- A key absent from the fetched record stays absent through the merge loop:
the loop never adds keys. -/
theorem lookup_mergeParams_none (k : String) :
    ∀ (params record : Record), List.lookup k record = none →
      List.lookup k (mergeParams record params) = none := by
  intro params
  induction params with
  | nil => intro record h; exact h
  | cons p rest ih =>
      intro record h
      obtain ⟨k1, v1⟩ := p
      rw [mergeParams]
      apply ih
      by_cases h1 : (List.lookup k1 record).isSome
      · have hne : k ≠ k1 := by
          intro he
          subst he
          rw [h] at h1
          simp at h1
        rw [if_pos h1, lookup_setKey_ne record k1 k v1 hne]
        exact h
      · rw [if_neg h1]
        exact h

/-- A supplied key that is present on the fetched record ends up bound to the
supplied value after the merge loop. -/
theorem lookup_mergeParams_mem :
    ∀ (params record : Record) (k : String) (v : Json),
      (params.map Prod.fst).Nodup → (k, v) ∈ params →
      (List.lookup k record).isSome →
      List.lookup k (mergeParams record params) = some v := by
  intro params
  induction params with
  | nil => intro record k v _ hmem _; cases hmem
  | cons p rest ih =>
      intro record k v hnd hmem hsome
      obtain ⟨k1, v1⟩ := p
      rw [List.map_cons, List.nodup_cons] at hnd
      rw [mergeParams]
      rcases List.mem_cons.mp hmem with heq | hmem2
      · cases heq
        rw [if_pos hsome, lookup_mergeParams_not_mem k rest _ hnd.1]
        exact lookup_setKey_self k v record hsome
      · have hk1 : k ≠ k1 := by
          intro he
          subst he
          exact hnd.1 (List.mem_map.mpr ⟨(k, v), hmem2, rfl⟩)
        by_cases h1 : (List.lookup k1 record).isSome
        · rw [if_pos h1]
          apply ih _ k v hnd.2 hmem2
          rw [lookup_setKey_ne record k1 k v1 hk1]
          exact hsome
        · rw [if_neg h1]
          exact ih _ k v hnd.2 hmem2 hsome

/-- C4: in every `security_group_set` call, a supplied key absent from the
fetched record is dropped from the PUT payload, and a supplied key present on
the fetched record is overwritten with the supplied value; in particular,
fetching the record `id = 1, name = a` and setting `bogus = x, name = b`
yields the PUT payload `id = 1, name = b`. -/
theorem security_group_set_merges_only_present_keys
    (srv : Server) (sg : String) (record params payload : Record)
    (hfind : (Server.find srv "name" sg).1 = Except.ok (Json.obj record))
    (hnodup : (params.map Prod.fst).Nodup)
    (hset : security_group_set srv sg params = Except.ok payload) :
    (∀ k, List.lookup k record = none → List.lookup k payload = none)
    ∧ (∀ k v, (k, v) ∈ params → (List.lookup k record).isSome →
        List.lookup k payload = some v)
    ∧ security_group_set srvSG "1" [("bogus", Json.str "x"), ("name", Json.str "b")]
        = Except.ok [("id", Json.str "1"), ("name", Json.str "b")] := by
  have hpay : payload = mergeParams record params := by
    unfold security_group_set at hset
    rw [hfind] at hset
    exact (Except.ok.injEq _ _).mp hset.symm
  subst hpay
  refine ⟨?_, ?_, rfl⟩
  · intro k hk
    exact lookup_mergeParams_none k params record hk
  · intro k v hmem hsome
    exact lookup_mergeParams_mem params record k v hnodup hmem hsome

theorem security_group_set_merges_only_present_keys_witness :
    ((∀ k, List.lookup k ([("id", Json.str "1"), ("name", Json.str "a")] : Record) = none →
        List.lookup k ([("id", Json.str "1"), ("name", Json.str "b")] : Record) = none)
    ∧ (∀ k v, (k, v) ∈ ([("bogus", Json.str "x"), ("name", Json.str "b")] : Record) →
        (List.lookup k ([("id", Json.str "1"), ("name", Json.str "a")] : Record)).isSome →
        List.lookup k ([("id", Json.str "1"), ("name", Json.str "b")] : Record) = some v)
    ∧ security_group_set srvSG "1" [("bogus", Json.str "x"), ("name", Json.str "b")]
        = Except.ok [("id", Json.str "1"), ("name", Json.str "b")]) :=
  security_group_set_merges_only_present_keys srvSG "1"
    [("id", Json.str "1"), ("name", Json.str "a")]
    [("bogus", Json.str "x"), ("name", Json.str "b")]
    [("id", Json.str "1"), ("name", Json.str "b")]
    rfl (by decide) rfl

/-- C6: creating volume type `gold` with `--property foo=bar` produces a
single-record display whose key/value pairs include a `properties` field
equal to the mapping `foo = bar` and contain no `extra_specs` field; showing
the stored record afterwards displays the same pair and also drops
`extra_specs`. -/
theorem createVolumeType_properties_no_extra_specs :
    (((CreateVolumeType_take_action createGoldArgs).1.zip
        (CreateVolumeType_take_action createGoldArgs).2).lookup "properties"
      = some (Json.obj [("foo", Json.str "bar")])
    ∧ ((CreateVolumeType_take_action createGoldArgs).1.zip
        (CreateVolumeType_take_action createGoldArgs).2).lookup "extra_specs"
      = none)
    ∧ ∃ d, ShowVolumeType_take_action goldRecord = some d
      ∧ (d.1.zip d.2).lookup "properties"
          = some (Json.obj [("foo", Json.str "bar")])
      ∧ (d.1.zip d.2).lookup "extra_specs" = none :=
  ⟨⟨rfl, rfl⟩, (showOne (setKey (eraseKey goldRecord "extra_specs") "properties"
      (format_dict (Json.obj [("foo", Json.str "bar")])))), rfl, rfl, rfl⟩
